import Mathlib

/-!
A shallow embedding of `src/socketshark/subscription.py`: the subscription
lifecycle, webhook invocation, and message delivery filter of socketshark.

Python's dynamic values are modelled by the inductive `Value` (integers,
strings, `None`, and nested dicts); Python dicts by association lists with
Python's update/lookup semantics.  Webhook HTTP calls (`http_post`) are
modelled by an oracle `String → PyDict → PyDict` mapping (url, payload) to
the parsed JSON response; side effects of a lifecycle operation are recorded
in an explicit `Effect` trace.  Exceptions (`EventError`) become `Except`.
-/

/-- A Python/JSON value as used by the subscription module. -/
inductive Value where
  | vInt (n : Int)
  | vStr (s : String)
  | vNone
  | vDict (entries : List (String × Value))

mutual

/-- Structural equality of values (Python `==` restricted to this value
universe). -/
def Value.beq : Value → Value → Bool
  | Value.vInt a, Value.vInt b => a == b
  | Value.vStr a, Value.vStr b => a == b
  | Value.vNone, Value.vNone => true
  | Value.vDict a, Value.vDict b => Value.beqEntries a b
  | _, _ => false

/-- Pointwise equality of dict entry lists. -/
def Value.beqEntries : List (String × Value) → List (String × Value) → Bool
  | [], [] => true
  | (k1, v1) :: t1, (k2, v2) :: t2 =>
      k1 == k2 && Value.beq v1 v2 && Value.beqEntries t1 t2
  | _, _ => false

end

mutual

theorem Value.beq_iff : ∀ a b : Value, Value.beq a b = true ↔ a = b
  | Value.vInt a, Value.vInt b => by simp [Value.beq]
  | Value.vStr a, Value.vStr b => by simp [Value.beq]
  | Value.vNone, Value.vNone => by simp [Value.beq]
  | Value.vDict a, Value.vDict b => by
      simpa [Value.beq] using Value.beqEntries_iff a b
  | Value.vInt _, Value.vStr _ => by simp [Value.beq]
  | Value.vInt _, Value.vNone => by simp [Value.beq]
  | Value.vInt _, Value.vDict _ => by simp [Value.beq]
  | Value.vStr _, Value.vInt _ => by simp [Value.beq]
  | Value.vStr _, Value.vNone => by simp [Value.beq]
  | Value.vStr _, Value.vDict _ => by simp [Value.beq]
  | Value.vNone, Value.vInt _ => by simp [Value.beq]
  | Value.vNone, Value.vStr _ => by simp [Value.beq]
  | Value.vNone, Value.vDict _ => by simp [Value.beq]
  | Value.vDict _, Value.vInt _ => by simp [Value.beq]
  | Value.vDict _, Value.vStr _ => by simp [Value.beq]
  | Value.vDict _, Value.vNone => by simp [Value.beq]

theorem Value.beqEntries_iff :
    ∀ a b : List (String × Value), Value.beqEntries a b = true ↔ a = b
  | [], [] => by simp [Value.beqEntries]
  | (k1, v1) :: t1, (k2, v2) :: t2 => by
      simp [Value.beqEntries, Value.beq_iff v1 v2, Value.beqEntries_iff t1 t2,
        and_assoc]
  | [], (_, _) :: _ => by simp [Value.beqEntries]
  | (_, _) :: _, [] => by simp [Value.beqEntries]

end

instance : DecidableEq Value := fun a b =>
  decidable_of_iff (Value.beq a b = true) (Value.beq_iff a b)

/-- A Python dict with string keys, as an association list (keys unique by
construction of the operations below; lookup takes the first match). -/
abbrev PyDict := List (String × Value)

/-- Lookup in an association list (Python `m.get(k)` without default). -/
def assocGet {α β : Type} [DecidableEq α] (m : List (α × β)) (k : α) :
    Option β :=
  (m.find? (fun p => p.1 = k)).map (fun p => p.2)

/-- Python `m[k] = v` on an insertion-ordered mapping: replace the value in
place when the key exists, else append the new entry. -/
def assocSet {α β : Type} [DecidableEq α] (m : List (α × β)) (k : α) (v : β) :
    List (α × β) :=
  match m with
  | [] => [(k, v)]
  | (k1, v1) :: t => if k1 = k then (k, v) :: t else (k1, v1) :: assocSet t k v

/-- Python `d[k]` lookup returning `none` when the key is absent. -/
def dictGet (d : PyDict) (k : String) : Option Value :=
  assocGet d k

/-- Python `d.get(k, default)`. -/
def dictGetD (d : PyDict) (k : String) (default : Value) : Value :=
  match dictGet d k with
  | some v => v
  | none => default

/-- Python `d.get(k)` (default `None`). -/
def pyGet (d : PyDict) (k : String) : Value :=
  dictGetD d k Value.vNone

/-- Python `k in d`. -/
def dictContains (d : PyDict) (k : String) : Bool :=
  (dictGet d k).isSome

/-- Python `d[k] = v`: replace in place when the key exists, else append. -/
def dictSet (d : PyDict) (k : String) (v : Value) : PyDict :=
  assocSet d k v

/-- Python `d1.update(d2)`: apply each assignment of `d2` in order. -/
def dictUpdate (d1 d2 : PyDict) : PyDict :=
  d2.foldl (fun acc p => dictSet acc p.1 p.2) d1

/-- Python `int(s)` on a string: optional surrounding whitespace, optional
sign, then a nonempty digit run. -/
def pyStrToInt (s : String) : Option Int :=
  let t := s.trim
  if t.startsWith "-" then
    ((t.drop 1).toNat?).map (fun n => -(n : Int))
  else if t.startsWith "+" then
    ((t.drop 1).toNat?).map (fun n => (n : Int))
  else
    (t.toNat?).map (fun n => (n : Int))

/-- Python `int(v)`: identity on integers, string parsing on strings,
`TypeError`/`ValueError` (= `none`) otherwise. -/
def pyInt : Value → Option Int
  | Value.vInt n => some n
  | Value.vStr s => pyStrToInt s
  | Value.vNone => none
  | Value.vDict _ => none

/-! ### Error constants

Modelled from the spec: the repository's `constants` module (imported as `c`
in `subscription.py`) is not among the provided sources; §7 of the design
lists the error kinds as distinct codes, so they are modelled as distinct
strings. -/

def ERR_INVALID_SUBSCRIPTION_FORMAT : String := "Invalid subscription format."
def ERR_INVALID_SERVICE : String := "Invalid service."
def ERR_AUTH_REQUIRED : String := "Authentication required."
def ERR_ALREADY_SUBSCRIBED : String := "Already subscribed."
def ERR_SUBSCRIPTION_NOT_FOUND : String := "Subscription not found."
def ERR_UNAUTHORIZED : String := "Unauthorized."
def ERR_UNHANDLED_EXCEPTION : String := "Unhandled exception."

/-- Python `a or b` on an optional string `a` with string fallback `b`
(`None` and the empty string are falsy). -/
def pyOrStr (a : Option String) (b : String) : String :=
  match a with
  | some s => if s = "" then b else s
  | none => b

/-! ### Configuration, session and effect model -/

/-- The resolved per-service configuration dict
(`config['SERVICES'][service]`): webhook URLs keyed by event name, plus the
auxiliary options read via `.get` in the source. -/
structure ServiceConfig where
  urls : List (String × String)
  extra_fields : List String
  filter_fields : List String
  require_authentication : Bool

/-- Python `service_event in service_config` / `service_config[service_event]`
restricted to the event-name keys. -/
def ServiceConfig.url? (cfg : ServiceConfig) (service_event : String) :
    Option String :=
  (cfg.urls.find? (fun p => p.1 = service_event)).map (fun p => p.2)

/-- The session state the subscription module reads and mutates: the
`auth_info` dict and the keys of the name → subscription mapping. -/
structure Sess where
  auth_info : PyDict
  subscriptions : List String

/-- One observable side effect of a lifecycle operation, in order of
occurrence: an outbound HTTP POST (`http_post`), a registry call on
`shark.service_receiver`, or an acknowledgment sent via `event.send_ok`. -/
inductive Effect where
  | httpPost (url : String) (payload : PyDict)
  | addProvisional (name : String)
  | confirmSub (name : String)
  | deleteSub (name : String)
  | sendOk (payload : Value)
  deriving DecidableEq

/-- The HTTP collaborator: a response oracle (url, payload) ↦ parsed JSON
response.  Quantifying over it models arbitrary webhook behaviour. -/
abbrev HttpOracle := String → PyDict → PyDict

/-! ### Identity resolver (`Subscription.__init__` and `validate`) -/

/-- Subscription state as built by `Subscription.__init__`.  `service_config`
is `none` when the service is unknown (Python `None`). -/
structure Subscription where
  name : String
  service : Option String
  topic : Option String
  service_config : Option ServiceConfig
  extra_data : PyDict
  order_state : List (Value × Int)

/-- Python `'.' in name` (on the character list, so that it computes by
structural recursion). -/
def containsDot (name : String) : Bool :=
  name.data.contains '.'

/-- Python `name.split('.', 1)`: the part before the first `.` and the rest
after it. -/
def splitOnce (name : String) : String × String :=
  (⟨name.data.takeWhile (fun c => c ≠ '.')⟩,
   ⟨(name.data.dropWhile (fun c => c ≠ '.')).tail⟩)

/-- Python `data.get('subscription') or ''`: the raw name, defaulting to the empty
string when absent or `None` (only string names occur in the protocol). -/
def subscriptionNameOf (data : PyDict) : String :=
  match dictGet data "subscription" with
  | some (Value.vStr s) => s
  | _ => ""

/-- Model of `Subscription.__init__(config, session, data)`, with `config['SERVICES']`
passed as the table `services`. -/
def Subscription.init (services : List (String × ServiceConfig))
    (data : PyDict) : Subscription :=
  let name := subscriptionNameOf data
  let (service, topic) : Option String × Option String :=
    if containsDot name then
      let st := splitOnce name
      (some st.1, some st.2)
    else (none, none)
  let service_config : Option ServiceConfig :=
    match service with
    | some s => (services.find? (fun p => p.1 = s)).map (fun p => p.2)
    | none => none
  let extra_data : PyDict :=
    match service_config with
    | some cfg =>
        cfg.extra_fields.foldl
          (fun acc field =>
            match dictGet data field with
            | some v => dictSet acc field v
            | none => acc) []
    | none => []
  { name := name, service := service, topic := topic,
    service_config := service_config, extra_data := extra_data,
    order_state := [] }

/-- Python truthiness test `not x` for an optional string (`None` and the
empty string are falsy). -/
def optStrFalsy : Option String → Bool
  | none => true
  | some s => s = ""

/-- Model of `Subscription.validate()`: `EventError` becomes `Except.error` carrying
the error message. -/
def Subscription.validate (sub : Subscription) : Except String Unit :=
  if optStrFalsy sub.service || optStrFalsy sub.topic then
    Except.error ERR_INVALID_SUBSCRIPTION_FORMAT
  else
    match sub.service_config with
    | none => Except.error ERR_INVALID_SERVICE
    | some _ => Except.ok ()

/-! ### Post-validation subscription state

All lifecycle methods below dereference `self.service_config`; in the source
they run only after `validate()` succeeded, i.e. with a resolved (non-`None`)
service config.  `SubState` is the subscription state on that path. -/

/-- Subscription state with its service config resolved. -/
structure SubState where
  name : String
  service_config : ServiceConfig
  extra_data : PyDict
  order_state : List (Value × Int)

/-- Model of `Subscription.prepare_service_data()`:
`{'subscription': name}` updated with `extra_data`, then `auth_info`. -/
def prepare_service_data (sub : SubState) (sess : Sess) : PyDict :=
  dictUpdate (dictUpdate [("subscription", Value.vStr sub.name)] sub.extra_data)
    sess.auth_info

/-! ### Webhook invoker (`perform_service_request` and its wrappers)

The returned pair is (result or raised `EventError`, ordered effect trace). -/

/-- Model of `Subscription.perform_service_request(service_event, extra_data,
error_message, raise_error)`. -/
def perform_service_request (http : HttpOracle) (sub : SubState) (sess : Sess)
    (service_event : String) (extra_data : PyDict)
    (error_message : Option String) (raise_error : Bool) :
    Except Value PyDict × List Effect :=
  match sub.service_config.url? service_event with
  | some url =>
      let data := dictUpdate (prepare_service_data sub sess) extra_data
      let result := http url data
      if raise_error = true ∧ pyGet result "status" ≠ Value.vStr "ok" then
        (Except.error (dictGetD result "error"
            (Value.vStr (pyOrStr error_message ERR_UNHANDLED_EXCEPTION))),
         [Effect.httpPost url data])
      else
        (Except.ok result, [Effect.httpPost url data])
  | none => (Except.ok [("status", Value.vStr "ok")], [])

/-- Model of `Subscription.authorize_subscription()`. -/
def authorize_subscription (http : HttpOracle) (sub : SubState) (sess : Sess) :
    Except Value PyDict × List Effect :=
  perform_service_request http sub sess "authorizer" [] (some ERR_UNAUTHORIZED)
    true

/-- Model of `Subscription.before_subscribe()`. -/
def before_subscribe (http : HttpOracle) (sub : SubState) (sess : Sess) :
    Except Value PyDict × List Effect :=
  perform_service_request http sub sess "before_subscribe" [] none true

/-- Model of `Subscription.on_subscribe()`. -/
def on_subscribe (http : HttpOracle) (sub : SubState) (sess : Sess) :
    Except Value PyDict × List Effect :=
  perform_service_request http sub sess "on_subscribe" [] none false

/-- Model of `Subscription.on_message(message_data)`. -/
def on_message (http : HttpOracle) (sub : SubState) (sess : Sess)
    (message_data : Value) : Except Value PyDict × List Effect :=
  perform_service_request http sub sess "on_message" [("data", message_data)]
    none true

/-- Model of `Subscription.before_unsubscribe(raise_error)`. -/
def before_unsubscribe (http : HttpOracle) (sub : SubState) (sess : Sess)
    (raise_error : Bool) : Except Value PyDict × List Effect :=
  perform_service_request http sub sess "before_unsubscribe" [] none
    raise_error

/-- Model of `Subscription.on_unsubscribe()`. -/
def on_unsubscribe (http : HttpOracle) (sub : SubState) (sess : Sess) :
    Except Value PyDict × List Effect :=
  perform_service_request http sub sess "on_unsubscribe" [] none false

/-! ### Delivery filter -/

/-- Python `self.order_state.get(key)` (keys are arbitrary Python values). -/
def orderGet (m : List (Value × Int)) (k : Value) : Option Int :=
  assocGet m k

/-- Python `self.order_state[key] = v`. -/
def orderSet (m : List (Value × Int)) (k : Value) (v : Int) :
    List (Value × Int) :=
  assocSet m k v

/-- Model of `Subscription._should_deliver_message_filter_fields(data)`. -/
def _should_deliver_message_filter_fields (sub : SubState) (sess : Sess)
    (data : PyDict) : Bool :=
  sub.service_config.filter_fields.all (fun field =>
    !(dictContains data field) || pyGet sess.auth_info field == pyGet data field)

/-- Model of `Subscription._should_deliver_message_order(data)`: the delivery verdict
together with the updated `order_state`. -/
def _should_deliver_message_order (sub : SubState) (data : PyDict) :
    Bool × List (Value × Int) :=
  if dictContains data "_order" then
    let key := pyGet data "_order_key"
    let last_order := orderGet sub.order_state key
    match pyInt (pyGet data "_order") with
    | none => (false, sub.order_state)
    | some order =>
        match last_order with
        | some lo =>
            if order ≤ lo then (false, sub.order_state)
            else (true, orderSet sub.order_state key order)
        | none => (true, orderSet sub.order_state key order)
  else (true, sub.order_state)

/-- Model of `Subscription.should_deliver_message(data)`: verdict and updated
`order_state` (the debug logging on the reject paths is not an observable
effect of this model). -/
def should_deliver_message (sub : SubState) (sess : Sess) (data : PyDict) :
    Bool × List (Value × Int) :=
  if _should_deliver_message_filter_fields sub sess data = false then
    (false, sub.order_state)
  else
    _should_deliver_message_order sub data

/-! ### Subscription lifecycle -/

/-- Result of a `subscribe` run: outcome, updated session and subscription
state, and the ordered effect trace. -/
structure SubscribeResult where
  outcome : Except Value Unit
  sess : Sess
  sub : SubState
  effects : List Effect

/-- Model of `Subscription.subscribe(event)`. -/
def subscribe (http : HttpOracle) (sub : SubState) (sess : Sess) :
    SubscribeResult :=
  if sub.service_config.require_authentication = true ∧ sess.auth_info = [] then
    ⟨Except.error (Value.vStr ERR_AUTH_REQUIRED), sess, sub, []⟩
  else if sub.name ∈ sess.subscriptions then
    ⟨Except.error (Value.vStr ERR_ALREADY_SUBSCRIBED), sess, sub, []⟩
  else
    match authorize_subscription http sub sess with
    | (Except.error e, fxA) => ⟨Except.error e, sess, sub, fxA⟩
    | (Except.ok _, fxA) =>
        let fxP := fxA ++ [Effect.addProvisional sub.name]
        match before_subscribe http sub sess with
        | (Except.error e, fxB) => ⟨Except.error e, sess, sub, fxP ++ fxB⟩
        | (Except.ok result, fxB) =>
            let sess' : Sess :=
              { sess with subscriptions := sess.subscriptions ++ [sub.name] }
            let verdict := should_deliver_message sub sess' result
            let sub' : SubState := { sub with order_state := verdict.2 }
            let fxD :=
              if verdict.1 = true then [Effect.sendOk (pyGet result "data")]
              else []
            let fxO := (on_subscribe http sub' sess').2
            ⟨Except.ok (), sess', sub',
              fxP ++ fxB ++ fxD ++ [Effect.confirmSub sub.name] ++ fxO⟩

/-- Model of `Subscription.message(event)`; `event_data` is `event.data`. -/
def message (http : HttpOracle) (sub : SubState) (sess : Sess)
    (event_data : PyDict) : Except Value Unit × List Effect :=
  if sub.name ∈ sess.subscriptions then
    let message_data := pyGet event_data "data"
    match on_message http sub sess message_data with
    | (Except.error e, fx) => (Except.error e, fx)
    | (Except.ok result, fx) =>
        if dictContains result "data" then
          (Except.ok (), fx ++ [Effect.sendOk (dictGetD result "data" Value.vNone)])
        else
          (Except.ok (), fx)
  else
    (Except.error (Value.vStr ERR_SUBSCRIPTION_NOT_FOUND), [])

/-- Model of `Subscription.unsubscribe(event)`. -/
def unsubscribe (http : HttpOracle) (sub : SubState) (sess : Sess) :
    Except Value Unit × Sess × List Effect :=
  if sub.name ∈ sess.subscriptions then
    match before_unsubscribe http sub sess true with
    | (Except.error e, fx) => (Except.error e, sess, fx)
    | (Except.ok result, fx) =>
        let sess' : Sess :=
          { sess with subscriptions := sess.subscriptions.erase sub.name }
        (Except.ok (), sess',
          fx ++ [Effect.deleteSub sub.name,
                 Effect.sendOk (pyGet result "data")]
             ++ (on_unsubscribe http sub sess').2)
  else
    (Except.error (Value.vStr ERR_SUBSCRIPTION_NOT_FOUND), sess, [])

/-- Model of `Subscription.force_unsubscribe()` (effects only; never raises). -/
def force_unsubscribe (http : HttpOracle) (sub : SubState) (sess : Sess) :
    List Effect :=
  [Effect.deleteSub sub.name]
    ++ (before_unsubscribe http sub sess false).2
    ++ (on_unsubscribe http sub sess).2

/-! ### Association-list lemmas -/

theorem assocGet_assocSet_self {α β : Type} [DecidableEq α]
    (m : List (α × β)) (k : α) (v : β) :
    assocGet (assocSet m k v) k = some v := by
  induction m with
  | nil => simp [assocSet, assocGet, List.find?]
  | cons a t ih =>
      obtain ⟨k1, v1⟩ := a
      by_cases h : k1 = k
      · simp [assocSet, h, assocGet, List.find?]
      · simpa [assocSet, h, assocGet, List.find?] using ih

theorem assocGet_assocSet_ne {α β : Type} [DecidableEq α]
    (m : List (α × β)) (k k' : α) (v : β) (h : k' ≠ k) :
    assocGet (assocSet m k v) k' = assocGet m k' := by
  have h' : ¬(k = k') := fun hk => h hk.symm
  induction m with
  | nil => simp [assocSet, assocGet, List.find?, h']
  | cons a t ih =>
      obtain ⟨k1, v1⟩ := a
      by_cases h1 : k1 = k
      · subst h1
        simp [assocSet, assocGet, List.find?, h']
      · by_cases h2 : k1 = k'
        · simp [assocSet, h1, assocGet, List.find?, h2, h]
        · simpa [assocSet, h1, assocGet, List.find?, h2] using ih

/-! ### Concrete example inputs used by witnesses and counterexamples -/

/-- A service config with no webhook URLs at all. -/
def noHookCfg : ServiceConfig := ⟨[], [], [], true⟩

/-- A service config with every lifecycle webhook configured and a `tenant`
filter field. -/
def fullCfg : ServiceConfig :=
  ⟨[("authorizer", "http://svc/auth"),
    ("before_subscribe", "http://svc/before_sub"),
    ("on_subscribe", "http://svc/on_sub"),
    ("on_message", "http://svc/on_msg"),
    ("before_unsubscribe", "http://svc/before_unsub"),
    ("on_unsubscribe", "http://svc/on_unsub")],
   [], ["tenant"], true⟩

/-- A freshly built subscription on the hookless service. -/
def noHookSub : SubState := ⟨"svc.topic", noHookCfg, [], []⟩

/-- A freshly built subscription on the fully hooked service. -/
def fullSub : SubState := ⟨"svc.topic", fullCfg, [], []⟩

/-- An authenticated session with no current subscriptions,
`auth_info = {tenant: "A"}`. -/
def authSess : Sess := ⟨[("tenant", Value.vStr "A")], []⟩

/-- The authenticated session already holding `svc.topic`. -/
def subscribedSess : Sess := ⟨[("tenant", Value.vStr "A")], ["svc.topic"]⟩

/-- A webhook backend answering `{status: ok}` everywhere. -/
def okHttp : HttpOracle := fun _ _ => [("status", Value.vStr "ok")]

/-- A webhook backend answering `{status: error, error: "denied"}`
everywhere. -/
def deniedHttp : HttpOracle := fun _ _ =>
  [("status", Value.vStr "error"), ("error", Value.vStr "denied")]

/-- C9: `perform_service_request` on an event with no configured URL returns
the synthetic `{status: ok}` response and performs no HTTP call; on a
configured event its effect trace is exactly one HTTP POST to the configured
URL with the merged payload. -/
theorem perform_service_request_http_calls (http : HttpOracle) (sub : SubState)
    (sess : Sess) (service_event : String) (extra_data : PyDict)
    (error_message : Option String) (raise_error : Bool) :
    (sub.service_config.url? service_event = none →
      perform_service_request http sub sess service_event extra_data
          error_message raise_error
        = (Except.ok [("status", Value.vStr "ok")], [])) ∧
    (∀ url, sub.service_config.url? service_event = some url →
      (perform_service_request http sub sess service_event extra_data
          error_message raise_error).2
        = [Effect.httpPost url
            (dictUpdate (prepare_service_data sub sess) extra_data)]) := by
  constructor
  · intro h
    simp [perform_service_request, h]
  · intro url h
    simp only [perform_service_request, h]
    split <;> rfl

/-- Witness for `perform_service_request_http_calls`: the hookless service
short-circuits `before_subscribe`, while the configured `authorizer` of
`fullCfg` produces exactly one POST to its URL. -/
theorem perform_service_request_http_calls_witness :
    perform_service_request okHttp noHookSub authSess "before_subscribe" []
        none true
      = (Except.ok [("status", Value.vStr "ok")], []) ∧
    (perform_service_request okHttp fullSub authSess "authorizer" []
        (some ERR_UNAUTHORIZED) true).2
      = [Effect.httpPost "http://svc/auth"
          (dictUpdate (prepare_service_data fullSub authSess) [])] :=
  ⟨(perform_service_request_http_calls okHttp noHookSub authSess
      "before_subscribe" [] none true).1 rfl,
   (perform_service_request_http_calls okHttp fullSub authSess
      "authorizer" [] (some ERR_UNAUTHORIZED) true).2 "http://svc/auth" rfl⟩

/-- C4: the order filter rejects messages whose `_order` does not parse as an
integer; for a parsable `_order` it accepts exactly when no order is recorded
under the message's `_order_key` (absent key = `None` bucket) or the new
order is strictly greater than the recorded one, and acceptance stores the
new order under that key; messages without `_order` always pass with the
order state untouched. -/
theorem order_filter_behavior (sub : SubState) (data : PyDict) :
    (dictContains data "_order" = true →
      pyInt (pyGet data "_order") = none →
      _should_deliver_message_order sub data = (false, sub.order_state)) ∧
    (∀ n : Int, dictContains data "_order" = true →
      pyInt (pyGet data "_order") = some n →
      (((_should_deliver_message_order sub data).1 = true ↔
        (∀ lo : Int,
          orderGet sub.order_state (pyGet data "_order_key") = some lo →
          lo < n)) ∧
      ((_should_deliver_message_order sub data).1 = true →
        (_should_deliver_message_order sub data).2
          = orderSet sub.order_state (pyGet data "_order_key") n))) ∧
    (dictContains data "_order" = false →
      _should_deliver_message_order sub data = (true, sub.order_state)) := by
  refine ⟨fun hc hp => ?_, fun n hc hp => ?_, fun hc => ?_⟩
  · simp [_should_deliver_message_order, hc, hp]
  · cases horder : orderGet sub.order_state (pyGet data "_order_key") with
    | none =>
        constructor
        · simp [_should_deliver_message_order, hc, hp, horder]
        · intro _
          simp [_should_deliver_message_order, hc, hp, horder]
    | some lo =>
        by_cases hle : n ≤ lo
        · constructor
          · simp only [_should_deliver_message_order, hc, hp, horder, if_true,
              if_pos hle]
            constructor
            · intro hfalse
              simp at hfalse
            · intro hall
              have := hall lo rfl
              omega
          · intro htrue
            simp [_should_deliver_message_order, hc, hp, horder, hle] at htrue
        · constructor
          · simp only [_should_deliver_message_order, hc, hp, horder, if_true,
              if_neg hle]
            constructor
            · intro _ lo' hlo'
              cases hlo'
              omega
            · intro _
              trivial
          · intro _
            simp [_should_deliver_message_order, hc, hp, horder, hle]
  · simp [_should_deliver_message_order, hc]

/-- A subscription that has already accepted order 5 under key `"k"`. -/
def orderSub : SubState := ⟨"svc.topic", noHookCfg, [], [(Value.vStr "k", 5)]⟩

/-- A message carrying `_order: 7` under `_order_key: "k"`. -/
def order7Msg : PyDict :=
  [("_order", Value.vInt 7), ("_order_key", Value.vStr "k")]

/-- Witness for `order_filter_behavior`: after accepting order 5 under key
`"k"`, a message with order 7 is accepted and the recorded order becomes 7. -/
theorem order_filter_behavior_witness :
    (_should_deliver_message_order orderSub order7Msg).1 = true ∧
    (_should_deliver_message_order orderSub order7Msg).2
      = [(Value.vStr "k", 7)] := by
  have h := (order_filter_behavior orderSub order7Msg).2.1 7 (by decide) (by decide)
  have hget : orderGet orderSub.order_state (pyGet order7Msg "_order_key")
      = some 5 := by decide
  have haccept : (_should_deliver_message_order orderSub order7Msg).1 = true := by
    refine h.1.mpr ?_
    intro lo hlo
    rw [hget] at hlo
    cases hlo
    omega
  refine ⟨haccept, ?_⟩
  rw [h.2 haccept]
  decide

/-- C5: a `should_deliver_message` call that rejects the message leaves
`order_state` unchanged, and whatever the call does, an order recorded for a
key never decreases. -/
theorem order_state_only_grows (sub : SubState) (sess : Sess) (data : PyDict) :
    ((should_deliver_message sub sess data).1 = false →
      (should_deliver_message sub sess data).2 = sub.order_state) ∧
    (∀ (key : Value) (lo lo' : Int),
      orderGet sub.order_state key = some lo →
      orderGet (should_deliver_message sub sess data).2 key = some lo' →
      lo ≤ lo') := by
  have horder :
      ((_should_deliver_message_order sub data).1 = false →
        (_should_deliver_message_order sub data).2 = sub.order_state) ∧
      (∀ (key : Value) (lo lo' : Int),
        orderGet sub.order_state key = some lo →
        orderGet (_should_deliver_message_order sub data).2 key = some lo' →
        lo ≤ lo') := by
    by_cases hc : dictContains data "_order" = true
    · cases hp : pyInt (pyGet data "_order") with
      | none =>
          simp only [_should_deliver_message_order, hc, hp, if_true]
          exact ⟨fun _ => by trivial,
            fun key lo lo' h1 h2 => by rw [h1] at h2; cases h2; omega⟩
      | some n =>
          cases hlast : orderGet sub.order_state (pyGet data "_order_key") with
          | none =>
              simp only [_should_deliver_message_order, hc, hp, hlast, if_true]
              refine ⟨fun hfalse => by simp at hfalse, ?_⟩
              intro key lo lo' h1 h2
              by_cases hkey : key = pyGet data "_order_key"
              · subst hkey
                rw [hlast] at h1
                cases h1
              · rw [orderGet, orderSet, assocGet_assocSet_ne _ _ _ _ hkey] at h2
                rw [orderGet] at h1
                rw [h1] at h2
                cases h2
                omega
          | some l0 =>
              by_cases hle : n ≤ l0
              · simp only [_should_deliver_message_order, hc, hp, hlast,
                  if_true, if_pos hle]
                exact ⟨fun _ => by trivial,
                  fun key lo lo' h1 h2 => by rw [h1] at h2; cases h2; omega⟩
              · simp only [_should_deliver_message_order, hc, hp, hlast,
                  if_true, if_neg hle]
                refine ⟨fun hfalse => by simp at hfalse, ?_⟩
                intro key lo lo' h1 h2
                by_cases hkey : key = pyGet data "_order_key"
                · subst hkey
                  rw [orderGet, orderSet, assocGet_assocSet_self] at h2
                  cases h2
                  rw [hlast] at h1
                  cases h1
                  omega
                · rw [orderGet, orderSet, assocGet_assocSet_ne _ _ _ _ hkey] at h2
                  rw [orderGet] at h1
                  rw [h1] at h2
                  cases h2
                  omega
    · have hc' : dictContains data "_order" = false := by
        cases h : dictContains data "_order"
        · rfl
        · exact absurd h hc
      simp only [_should_deliver_message_order, hc', Bool.false_eq_true,
        if_false]
      exact ⟨fun _ => by trivial,
        fun key lo lo' h1 h2 => by rw [h1] at h2; cases h2; omega⟩
  by_cases hf : _should_deliver_message_filter_fields sub sess data = false
  · simp only [should_deliver_message, hf, if_true]
    exact ⟨fun _ => by trivial,
      fun key lo lo' h1 h2 => by rw [h1] at h2; cases h2; omega⟩
  · simp only [should_deliver_message, hf, if_false]
    exact horder

/-- A message rejected by the order filter (stale order 3 under key `"k"`). -/
def staleOrderMsg : PyDict :=
  [("_order", Value.vInt 3), ("_order_key", Value.vStr "k")]

/-- Witness for `order_state_only_grows`: the stale message is rejected and
`order_state` keeps its recorded value 5 for key `"k"`. -/
theorem order_state_only_grows_witness :
    (should_deliver_message orderSub authSess staleOrderMsg).1 = false ∧
    (should_deliver_message orderSub authSess staleOrderMsg).2
      = orderSub.order_state ∧
    (5 : Int) ≤ 5 := by
  have h := order_state_only_grows orderSub authSess staleOrderMsg
  have hrej : (should_deliver_message orderSub authSess staleOrderMsg).1
      = false := by decide
  refine ⟨hrej, h.1 hrej, ?_⟩
  have h5 : orderGet orderSub.order_state (Value.vStr "k") = some 5 := by decide
  exact h.2 (Value.vStr "k") 5 5 h5 (by rw [h.1 hrej]; exact h5)

/-- C6: the field filter rejects a message exactly when some configured
filter field is present in the message with a value different from the
session's auth value for that field (`auth_info.get(field)`, i.e. `None`
when unset); filter fields absent from the message are never checked. -/
theorem filter_fields_reject_iff (sub : SubState) (sess : Sess)
    (data : PyDict) :
    _should_deliver_message_filter_fields sub sess data = false ↔
      ∃ field ∈ sub.service_config.filter_fields,
        dictContains data field = true ∧
        pyGet sess.auth_info field ≠ pyGet data field := by
  rw [_should_deliver_message_filter_fields]
  rw [List.all_eq_false]
  constructor
  · rintro ⟨field, hmem, hfail⟩
    refine ⟨field, hmem, ?_⟩
    rcases hcont : dictContains data field with _ | _
    · simp [hcont] at hfail
    · simp only [hcont, Bool.not_true, Bool.false_or] at hfail
      exact ⟨rfl, by simpa using hfail⟩
  · rintro ⟨field, hmem, hcont, hne⟩
    refine ⟨field, hmem, ?_⟩
    simp [hcont, hne]

/-- A webhook request never emits a client acknowledgment: the trace of
`perform_service_request` consists of HTTP POSTs only. -/
theorem sendOk_not_in_request_trace (http : HttpOracle) (sub : SubState)
    (sess : Sess) (service_event : String) (extra_data : PyDict)
    (error_message : Option String) (raise_error : Bool) (p : Value) :
    Effect.sendOk p ∉
      (perform_service_request http sub sess service_event extra_data
        error_message raise_error).2 := by
  rw [perform_service_request]
  cases sub.service_config.url? service_event with
  | none => simp
  | some url =>
      dsimp only
      split <;> simp

/-- C7: `subscribe()` on a name already in the session's mapping (with the
authentication precondition satisfied) fails with `AlreadySubscribed`,
leaves all state unchanged and performs no effect at all — in particular no
webhook call. -/
theorem subscribe_already_subscribed (http : HttpOracle) (sub : SubState)
    (sess : Sess)
    (hauth : ¬(sub.service_config.require_authentication = true ∧
      sess.auth_info = []))
    (hmem : sub.name ∈ sess.subscriptions) :
    subscribe http sub sess
      = ⟨Except.error (Value.vStr ERR_ALREADY_SUBSCRIBED), sess, sub, []⟩ := by
  rw [subscribe, if_neg hauth, if_pos hmem]

/-- Witness for `subscribe_already_subscribed`: re-subscribing `svc.topic`
on a session that already holds it. -/
theorem subscribe_already_subscribed_witness :
    subscribe okHttp fullSub subscribedSess
      = ⟨Except.error (Value.vStr ERR_ALREADY_SUBSCRIBED), subscribedSess,
         fullSub, []⟩ :=
  subscribe_already_subscribed okHttp fullSub subscribedSess
    (by decide) (by decide)

/-- C8: when the authorizer webhook answers with a non-ok status,
`subscribe()` fails with the response's `error` value (defaulting to the
unauthorized message), the session mapping is untouched, and the only effect
is the authorizer POST itself — no provisional registration, no insertion,
no confirmation. -/
theorem subscribe_authorizer_rejected (http : HttpOracle) (sub : SubState)
    (sess : Sess) (url : String)
    (hauth : ¬(sub.service_config.require_authentication = true ∧
      sess.auth_info = []))
    (hmem : sub.name ∉ sess.subscriptions)
    (hurl : sub.service_config.url? "authorizer" = some url)
    (hstatus : pyGet (http url (prepare_service_data sub sess)) "status"
      ≠ Value.vStr "ok") :
    subscribe http sub sess
      = ⟨Except.error (dictGetD (http url (prepare_service_data sub sess))
            "error" (Value.vStr ERR_UNAUTHORIZED)),
         sess, sub,
         [Effect.httpPost url (prepare_service_data sub sess)]⟩ := by
  have hpy : pyOrStr (some ERR_UNAUTHORIZED) ERR_UNHANDLED_EXCEPTION
      = ERR_UNAUTHORIZED := by decide
  have hA : authorize_subscription http sub sess
      = (Except.error (dictGetD (http url (prepare_service_data sub sess))
            "error" (Value.vStr ERR_UNAUTHORIZED)),
         [Effect.httpPost url (prepare_service_data sub sess)]) := by
    rw [authorize_subscription, perform_service_request, hurl]
    dsimp only
    rw [show dictUpdate (prepare_service_data sub sess) []
        = prepare_service_data sub sess from rfl]
    rw [if_pos ⟨rfl, hstatus⟩, hpy]
  rw [subscribe, if_neg hauth, if_neg hmem, hA]

/-- Witness for `subscribe_authorizer_rejected`: the everywhere-denying
backend rejects the authorizer call of `fullSub` and `subscribe` surfaces
`"denied"` while performing only that POST. -/
theorem subscribe_authorizer_rejected_witness :
    subscribe deniedHttp fullSub authSess
      = ⟨Except.error (Value.vStr "denied"), authSess, fullSub,
         [Effect.httpPost "http://svc/auth"
            (prepare_service_data fullSub authSess)]⟩ := by
  have h := subscribe_authorizer_rejected deniedHttp fullSub authSess
    "http://svc/auth" (by decide) (by decide) (by decide) (by decide)
  rw [h]
  rfl

/-- C1 (counterexample): with a configured `before_subscribe` URL and a
webhook answering `{status: error, error: "denied"}`, `before_subscribe()`
raises that error instead of returning the raw response. -/
theorem before_subscribe_raises_counterexample :
    (before_subscribe deniedHttp fullSub authSess).1
      = Except.error (Value.vStr "denied") := by
  rfl

/-- C1 (amended): `before_subscribe()` is a raising checkpoint — with a
configured URL it returns the raw webhook response when its status is
`"ok"`, and raises the response's `error` value (defaulting to the generic
unhandled-exception message) otherwise. -/
theorem before_subscribe_raise_policy (http : HttpOracle) (sub : SubState)
    (sess : Sess) (url : String)
    (hurl : sub.service_config.url? "before_subscribe" = some url) :
    (pyGet (http url (prepare_service_data sub sess)) "status"
        = Value.vStr "ok" →
      (before_subscribe http sub sess).1
        = Except.ok (http url (prepare_service_data sub sess))) ∧
    (pyGet (http url (prepare_service_data sub sess)) "status"
        ≠ Value.vStr "ok" →
      (before_subscribe http sub sess).1
        = Except.error (dictGetD (http url (prepare_service_data sub sess))
            "error" (Value.vStr ERR_UNHANDLED_EXCEPTION))) := by
  have hbody : before_subscribe http sub sess
      = if h : pyGet (http url (prepare_service_data sub sess)) "status"
            ≠ Value.vStr "ok" then
          (Except.error (dictGetD (http url (prepare_service_data sub sess))
              "error" (Value.vStr ERR_UNHANDLED_EXCEPTION)),
           [Effect.httpPost url (prepare_service_data sub sess)])
        else
          (Except.ok (http url (prepare_service_data sub sess)),
           [Effect.httpPost url (prepare_service_data sub sess)]) := by
    rw [before_subscribe, perform_service_request, hurl]
    dsimp only
    rw [show dictUpdate (prepare_service_data sub sess) []
        = prepare_service_data sub sess from rfl]
    by_cases hs : pyGet (http url (prepare_service_data sub sess)) "status"
        = Value.vStr "ok"
    · rw [if_neg, dif_neg]
      · simpa using hs
      · rintro ⟨-, hne⟩
        exact hne hs
    · rw [if_pos ⟨rfl, hs⟩, dif_pos hs]
      rfl
  constructor
  · intro hs
    rw [hbody, dif_neg (by simpa using hs)]
  · intro hs
    rw [hbody, dif_pos hs]

/-- Witness for `before_subscribe_raise_policy`: the denying backend makes
`before_subscribe` on `fullSub` raise `"denied"`. -/
theorem before_subscribe_raise_policy_witness :
    (before_subscribe deniedHttp fullSub authSess).1
      = Except.error (dictGetD
          (deniedHttp "http://svc/before_sub"
            (prepare_service_data fullSub authSess))
          "error" (Value.vStr ERR_UNHANDLED_EXCEPTION)) :=
  (before_subscribe_raise_policy deniedHttp fullSub authSess
    "http://svc/before_sub" (by decide)).2 (by decide)

/-- The entries of a dict-valued `Value` (the empty dict otherwise). -/
def valueEntries : Value → PyDict
  | Value.vDict d => d
  | _ => []

/-- The delivery check as claim C2 words it (spec reading, for comparison
with the code): the Delivery Filter applied to the `data` field of the
`before_subscribe` result rather than to the whole result object. -/
def should_deliver_data_field (sub : SubState) (sess : Sess)
    (result : PyDict) : Bool :=
  (should_deliver_message sub sess (valueEntries (pyGet result "data"))).1

/-- The `before_subscribe` response `{status: ok, data: {tenant: "B"}}`. -/
def tenantBResp : PyDict :=
  [("status", Value.vStr "ok"),
   ("data", Value.vDict [("tenant", Value.vStr "B")])]

/-- A webhook backend answering `tenantBResp` everywhere. -/
def tenantBHttp : HttpOracle := fun _ _ => tenantBResp

/-- C2 (counterexample): with `filter_fields = ["tenant"]` and
`auth_info = {tenant: "A"}`, the filter applied to the result's `data` field
`{tenant: "B"}` rejects it, yet `subscribe` still sends the acknowledgment
carrying that data — the code filters the whole result object, in which
`tenant` does not occur at top level. -/
theorem subscribe_ack_despite_data_field_reject :
    should_deliver_data_field fullSub subscribedSess tenantBResp = false ∧
    Effect.sendOk (Value.vDict [("tenant", Value.vStr "B")])
      ∈ (subscribe tenantBHttp fullSub authSess).effects := by
  constructor
  · decide
  · decide

/-- C2 (amended): on a successful subscribe, the Delivery Filter is applied
to the entire `before_subscribe` result object, and the acknowledgment
carrying the result's `data` field is sent to the client iff the filter
accepts that whole result. -/
theorem subscribe_ack_iff_filter_accepts_result (http : HttpOracle)
    (sub : SubState) (sess : Sess) (ra result : PyDict) (fxA fxB : List Effect)
    (hauth : ¬(sub.service_config.require_authentication = true ∧
      sess.auth_info = []))
    (hmem : sub.name ∉ sess.subscriptions)
    (hA : authorize_subscription http sub sess = (Except.ok ra, fxA))
    (hB : before_subscribe http sub sess = (Except.ok result, fxB)) :
    (Effect.sendOk (pyGet result "data") ∈ (subscribe http sub sess).effects
      ↔ (should_deliver_message sub
          { sess with subscriptions := sess.subscriptions ++ [sub.name] }
          result).1 = true) := by
  have hfxA : Effect.sendOk (pyGet result "data") ∉ fxA := by
    have h := sendOk_not_in_request_trace http sub sess "authorizer" []
      (some ERR_UNAUTHORIZED) true (pyGet result "data")
    rw [authorize_subscription] at hA
    rw [hA] at h
    exact h
  have hfxB : Effect.sendOk (pyGet result "data") ∉ fxB := by
    have h := sendOk_not_in_request_trace http sub sess "before_subscribe" []
      none true (pyGet result "data")
    rw [before_subscribe] at hB
    rw [hB] at h
    exact h
  have hfxO : ∀ sub' sess', Effect.sendOk (pyGet result "data")
      ∉ (on_subscribe http sub' sess').2 := by
    intro sub' sess'
    rw [on_subscribe]
    exact sendOk_not_in_request_trace http sub' sess' "on_subscribe" []
      none false (pyGet result "data")
  rw [subscribe, if_neg hauth, if_neg hmem, hA, hB]
  dsimp only
  cases hv : (should_deliver_message sub
      { sess with subscriptions := sess.subscriptions ++ [sub.name] }
      result).1 with
  | true =>
      simp [hv, List.mem_append, hfxA, hfxB]
  | false =>
      simp [hv, List.mem_append, hfxA, hfxB, hfxO _ _]

/-- Witness for `subscribe_ack_iff_filter_accepts_result`: the
`{tenant: "B"}` payload passes the filter on the whole result object, so the
acknowledgment is sent. -/
theorem subscribe_ack_iff_filter_accepts_result_witness :
    Effect.sendOk (pyGet tenantBResp "data")
      ∈ (subscribe tenantBHttp fullSub authSess).effects :=
  (subscribe_ack_iff_filter_accepts_result tenantBHttp fullSub authSess
    tenantBResp tenantBResp
    [Effect.httpPost "http://svc/auth" (prepare_service_data fullSub authSess)]
    [Effect.httpPost "http://svc/before_sub"
      (prepare_service_data fullSub authSess)]
    (by decide) (by decide) rfl rfl).mpr (by decide)

/-- C3 (counterexample): with a configured `on_message` URL and the webhook
answering `{status: error, error: "denied"}`, `message()` on a subscribed
name raises that error instead of swallowing it. -/
theorem message_raises_counterexample :
    (message deniedHttp fullSub subscribedSess [("data", Value.vInt 1)]).1
      = Except.error (Value.vStr "denied") := by
  rfl

/-- C3 (amended): a non-ok status in the `on_message` webhook response is
not swallowed — `message()` raises the response's `error` value (defaulting
to the generic unhandled-exception message) and sends nothing to the client;
on an ok response, an acknowledgment is sent iff the response contains a
`data` field. -/
theorem message_on_message_policy (http : HttpOracle) (sub : SubState)
    (sess : Sess) (event_data : PyDict) (url : String)
    (hmem : sub.name ∈ sess.subscriptions)
    (hurl : sub.service_config.url? "on_message" = some url) :
    (pyGet (http url (dictUpdate (prepare_service_data sub sess)
          [("data", pyGet event_data "data")])) "status" ≠ Value.vStr "ok" →
      message http sub sess event_data
        = (Except.error (dictGetD
              (http url (dictUpdate (prepare_service_data sub sess)
                [("data", pyGet event_data "data")]))
              "error" (Value.vStr ERR_UNHANDLED_EXCEPTION)),
           [Effect.httpPost url (dictUpdate (prepare_service_data sub sess)
              [("data", pyGet event_data "data")])])) ∧
    (pyGet (http url (dictUpdate (prepare_service_data sub sess)
          [("data", pyGet event_data "data")])) "status" = Value.vStr "ok" →
      message http sub sess event_data
        = (Except.ok (),
           [Effect.httpPost url (dictUpdate (prepare_service_data sub sess)
              [("data", pyGet event_data "data")])]
            ++ (if dictContains
                  (http url (dictUpdate (prepare_service_data sub sess)
                    [("data", pyGet event_data "data")])) "data" = true then
                  [Effect.sendOk (dictGetD
                    (http url (dictUpdate (prepare_service_data sub sess)
                      [("data", pyGet event_data "data")]))
                    "data" Value.vNone)]
                else []))) := by
  have hbody : on_message http sub sess (pyGet event_data "data")
      = if pyGet (http url (dictUpdate (prepare_service_data sub sess)
            [("data", pyGet event_data "data")])) "status"
            ≠ Value.vStr "ok" then
          (Except.error (dictGetD
              (http url (dictUpdate (prepare_service_data sub sess)
                [("data", pyGet event_data "data")]))
              "error" (Value.vStr ERR_UNHANDLED_EXCEPTION)),
           [Effect.httpPost url (dictUpdate (prepare_service_data sub sess)
              [("data", pyGet event_data "data")])])
        else
          (Except.ok (http url (dictUpdate (prepare_service_data sub sess)
              [("data", pyGet event_data "data")])),
           [Effect.httpPost url (dictUpdate (prepare_service_data sub sess)
              [("data", pyGet event_data "data")])]) := by
    rw [on_message, perform_service_request, hurl]
    dsimp only
    by_cases hs : pyGet (http url (dictUpdate (prepare_service_data sub sess)
        [("data", pyGet event_data "data")])) "status" = Value.vStr "ok"
    · rw [if_neg, if_neg]
      · simpa using hs
      · rintro ⟨-, hne⟩
        exact hne hs
    · rw [if_pos ⟨rfl, hs⟩, if_pos hs]
      rfl
  constructor
  · intro hs
    rw [message, if_pos hmem]
    dsimp only
    rw [hbody, if_pos hs]
  · intro hs
    rw [message, if_pos hmem]
    dsimp only
    rw [hbody, if_neg (by simpa using hs)]
    dsimp only
    split <;> rfl

/-- Witness for `message_on_message_policy`: the denying backend makes
`message` raise `"denied"` after exactly the one `on_message` POST. -/
theorem message_on_message_policy_witness :
    message deniedHttp fullSub subscribedSess [("data", Value.vInt 1)]
      = (Except.error (Value.vStr "denied"),
         [Effect.httpPost "http://svc/on_msg"
            (dictUpdate (prepare_service_data fullSub subscribedSess)
              [("data", pyGet [("data", Value.vInt 1)] "data")])]) := by
  have h := (message_on_message_policy deniedHttp fullSub subscribedSess
    [("data", Value.vInt 1)] "http://svc/on_msg" (by decide) (by decide)).1
    (by decide)
  rw [h]
  rfl

/-- C10: a subscription name that contains a `.` separator but whose service
part or topic part is empty (such as `".topic"`, `"svc."` or `"."`) fails
`validate()` with `InvalidSubscriptionFormat` — never with `InvalidService`
— because Python's truthiness test `not self.service or not self.topic`
treats the empty string as falsy before the service lookup is consulted. -/
theorem validate_empty_part_is_format_error
    (services : List (String × ServiceConfig)) (data : PyDict)
    (hdot : containsDot (subscriptionNameOf data) = true)
    (hempty : (splitOnce (subscriptionNameOf data)).1 = "" ∨
      (splitOnce (subscriptionNameOf data)).2 = "") :
    (Subscription.init services data).validate
        = Except.error ERR_INVALID_SUBSCRIPTION_FORMAT ∧
    (Subscription.init services data).validate
        ≠ Except.error ERR_INVALID_SERVICE := by
  have hserv : (Subscription.init services data).service
      = some (splitOnce (subscriptionNameOf data)).1 := by
    simp [Subscription.init, hdot]
  have htop : (Subscription.init services data).topic
      = some (splitOnce (subscriptionNameOf data)).2 := by
    simp [Subscription.init, hdot]
  have hfalsy : (optStrFalsy (Subscription.init services data).service ||
      optStrFalsy (Subscription.init services data).topic) = true := by
    rcases hempty with h | h
    · rw [hserv, h]
      rfl
    · rw [htop, h]
      simp [optStrFalsy]
  have hval : (Subscription.init services data).validate
      = Except.error ERR_INVALID_SUBSCRIPTION_FORMAT := by
    rw [Subscription.validate, if_pos hfalsy]
  refine ⟨hval, ?_⟩
  rw [hval]
  intro h
  have : ERR_INVALID_SUBSCRIPTION_FORMAT = ERR_INVALID_SERVICE :=
    Except.error.inj h
  exact absurd this (by decide)

/-- Witness for `validate_empty_part_is_format_error`: the name `".topic"`
(empty service part) yields `InvalidSubscriptionFormat`. -/
theorem validate_empty_part_is_format_error_witness :
    (Subscription.init [("", fullCfg)]
        [("subscription", Value.vStr ".topic")]).validate
      = Except.error ERR_INVALID_SUBSCRIPTION_FORMAT :=
  (validate_empty_part_is_format_error [("", fullCfg)]
    [("subscription", Value.vStr ".topic")] (by decide) (Or.inl (by decide))).1
